import Mathlib

/-!
Verification development for the AITool repository.

The repository is a set of serverless JavaScript handlers that fan a user
prompt out to several LLM providers, score each response with a string
heuristic, assemble a markdown comparison report and compute credit refunds.
This file gives a shallow embedding in Lean of the code that the claims
concern:

* `src/netlify/functions/process-ai-test.js` (the credits variant, first
  document in that file): `callAI`, `analyzeResponse`,
  `generateComparisonReport`, `getReportTitle`, `getToolDisplayName` and the
  per-provider loop of `exports.handler`, embedded as `Process.analyzeResponse`,
  `callAI`, `generateComparisonReport` and `handlerCore`.
* the legacy `process-ai-test.js` variant stored as the second document of
  `src/netlify/functions/paypal-webhook.js`: its `analyzeResponse` is embedded
  as `Legacy.analyzeResponse`.

Modelling conventions, chosen so every definition is executable:

* JavaScript numbers: every quality-score increment in the source is a
  multiple of 0.5, so scores are exact in binary floating point and
  `Math.round(score * 10) / 10` is the identity on them.  Scores are therefore
  represented in TENTHS of a point as a `Nat` (base score 6 becomes 60,
  a bonus of 1.5 becomes 15, the cap `Math.min(_, 10)` becomes `min _ 100`).
  The one floating-point division in the source,
  `wordCount / sentences < 40` (evaluated only when `sentences > 1`), is
  embedded as the exact equivalent `wordCount < 40 * sentences`.
* Credit counts come from the request body and are embedded as `Int`;
  the source performs plain JS subtraction with no clamping.
* The network is external to the repository: the body of a `fetch` plus
  response-shape extraction inside `callAI` is abstracted as an oracle
  `NetOracle` mapping (provider, prompt) to either extracted text or a thrown
  error message; `callAI` itself (config lookup, catch-and-stringify of all
  per-call errors) is embedded faithfully on top of the oracle.
* JS objects used as string-keyed maps (`results[ai] = ...`, `Object.keys`)
  are embedded as association lists in insertion order with
  `objGet` / `objSet`.
* `Array.prototype.sort` with the comparator
  `(a, b) => results[b].analysis.score - results[a].analysis.score` is a
  stable sort (ECMAScript 2019); it is embedded as Mathlib's stable
  `List.insertionSort` with the matching total preorder.
* `new Date(...)` strings are taken as an opaque `date` parameter; e-mail
  sending and the HTTP envelope are outside the claims and are not modelled.
* `\s` in the source's regexes is matched here by `isWs`, covering the ASCII
  whitespace characters; the claims do not depend on Unicode whitespace.
-/

set_option maxRecDepth 400000

namespace AITool

/-- ASCII whitespace, the characters matched by the `\s` regex class that the
source splits on (space, tab, newline, carriage return, vertical tab, form
feed). -/
def isWs (c : Char) : Bool :=
  c == ' ' || c == '\t' || c == '\n' || c == '\r' || c == '\x0b' || c == '\x0c'

/-- Characters of the `[.!?]` class used by the sentence split. -/
def sentSep (c : Char) : Bool :=
  c == '.' || c == '!' || c == '?'

/-- Worker for `jsSplit`: splits a character list at maximal runs of
separator characters, with JavaScript `String.prototype.split` semantics for
a one-class-plus regex — a leading run yields a leading empty field, a
trailing run a trailing empty field, and the empty string yields one empty
field. -/
def splitRunsGo (p : Char → Bool) : List Char → List Char → Bool → List (List Char)
  | [], cur, _ => [cur.reverse]
  | c :: rest, cur, inSep =>
    if p c then
      if inSep then splitRunsGo p rest cur true
      else cur.reverse :: splitRunsGo p rest [] true
    else splitRunsGo p rest (c :: cur) false

/-- JavaScript `s.split(/[class]+/)` for a character class given by `p`. -/
def jsSplit (p : Char → Bool) (s : String) : List String :=
  (splitRunsGo p s.data [] false).map (fun l => String.mk l)

/-- JavaScript `String.prototype.trim` (whitespace stripped from both ends). -/
def jsTrim (s : String) : String :=
  String.mk (((s.data.dropWhile isWs).reverse.dropWhile isWs).reverse)

/-- JavaScript `String.prototype.toLowerCase` (ASCII case folding, which is
all the source's case-insensitive regexes rely on). -/
def jsLower (s : String) : String :=
  String.mk (s.data.map Char.toLower)

/-- Does `pat` occur as a contiguous run inside `l`?  Worker for
`containsSub`. -/
def hasSub (pat : List Char) : List Char → Bool
  | [] => pat.isEmpty
  | c :: t => pat.isPrefixOf (c :: t) || hasSub pat t

/-- JavaScript `s.includes(pat)`. -/
def containsSub (s pat : String) : Bool :=
  hasSub pat.data s.data

/-- Does the text match `/\d+\./`, i.e. contain a digit immediately followed
by a dot?  (A one-or-more digit run ends in a digit adjacent to the dot, so
the two tests are equivalent.) -/
def digitDot : List Char → Bool
  | a :: b :: rest => (a.isDigit && b == '.') || digitDot (b :: rest)
  | _ => false

/-- Index of the last newline within a run of characters, if any. -/
def lastNewlineIdx (run : List Char) : Option Nat :=
  match run.reverse.findIdx? (fun c => c == '\n') with
  | none => none
  | some r => some (run.length - 1 - r)

/-- Worker for `parSplit`: splits at matches of the paragraph-separator regex
`/\n\s*\n/` (leftmost match, greedy `\s*` backtracking to end at the last
newline of the whitespace run).  Each recursive step consumes at least one
character, so fuel `length + 1` never runs out; fuel keeps the recursion
structural and therefore evaluable by `decide`. -/
def parSplitGo : Nat → List Char → List Char → List (List Char)
  | 0, _, cur => [cur.reverse]
  | _ + 1, [], cur => [cur.reverse]
  | fuel + 1, c :: rest, cur =>
    if c == '\n' then
      match lastNewlineIdx (rest.takeWhile isWs) with
      | some j => cur.reverse :: parSplitGo fuel (rest.drop (j + 1)) []
      | none => parSplitGo fuel rest ('\n' :: cur)
    else parSplitGo fuel rest (c :: cur)

/-- JavaScript `s.split(/\n\s*\n/)` — the paragraph split of the scorers. -/
def parSplit (s : String) : List (List Char) :=
  parSplitGo (s.data.length + 1) s.data []

/-- JavaScript `Array.prototype.join(sep)`. -/
def joinSep (l : List String) (sep : String) : String :=
  match l with
  | [] => ""
  | a :: rest => rest.foldl (fun acc x => acc ++ sep ++ x) a

/-- The record returned by the source's `analyzeResponse` — the spec's
`ScoreResult`.  `score` is held in tenths of a point (see the header
comment), the other numeric fields are the raw counts the source computes. -/
structure ScoreResult where
  score : Nat
  wordCount : Nat
  sentences : Nat
  paragraphs : Nat
  length : Nat
  pros : List String
  cons : List String
deriving DecidableEq, Repr

namespace Process

/-- `analyzeResponse(response, provider, toolType)` from
`src/netlify/functions/process-ai-test.js` lines 85-132 (the credits
variant: base score 6, detail threshold 150 words, actionable bonus 1,
real-estate keyword bonuses).  `provider` is accepted and ignored exactly as
in the source.  Scores are in tenths: base 60, bonuses 15/10/10/5/10/5/5 and
two optional 5s, capped by `min _ 100` (`Math.round(score*10)/10` is the
identity on these values, see the header comment). -/
def analyzeResponse (response provider toolType : String) : ScoreResult :=
  let wordCount := (jsSplit isWs response).length
  let sentences := ((jsSplit sentSep response).filter
    (fun s => decide (0 < (jsTrim s).length))).length
  let paragraphs := (parSplit response).length
  let hasStructure := containsSub response "\n" || containsSub response "*"
    || containsSub response "-" || digitDot response.data
  let isDetailed := decide (150 < wordCount)
  let isCoherent := decide (1 < sentences) && decide (wordCount < 40 * sentences)
  let hasExamples := containsSub (jsLower response) "example"
    || containsSub (jsLower response) "for instance"
  let isActionable := containsSub (jsLower response) "recommend"
    || containsSub (jsLower response) "suggest"
    || containsSub (jsLower response) "should"
  let score : Nat := 60
    + (if isDetailed then 15 else 0)
    + (if hasStructure then 10 else 0)
    + (if isCoherent then 10 else 0)
    + (if hasExamples then 5 else 0)
    + (if isActionable then 10 else 0)
    + (if 500 < response.length then 5 else 0)
    + (if 2 < paragraphs then 5 else 0)
    + (if containsSub toolType "real-estate" then
        (if containsSub (jsLower response) "cash flow"
            || containsSub (jsLower response) "cap rate"
            || containsSub (jsLower response) "roi"
            || containsSub (jsLower response) "return" then 5 else 0)
        + (if containsSub (jsLower response) "risk"
            || containsSub (jsLower response) "market"
            || containsSub (jsLower response) "analysis" then 5 else 0)
      else 0)
  let pros :=
    (if isDetailed then ["Comprehensive and detailed analysis"] else [])
    ++ (if hasStructure then ["Well-organized professional format"] else [])
    ++ (if isCoherent then ["Clear and coherent presentation"] else [])
    ++ (if hasExamples then ["Includes relevant examples"] else [])
    ++ (if isActionable then ["Provides actionable recommendations"] else [])
  let cons :=
    (if !isDetailed then ["Could provide more detailed analysis"] else [])
    ++ (if !hasStructure then ["Could improve formatting structure"] else [])
    ++ (if !isCoherent then ["Could improve clarity and flow"] else [])
    ++ (if wordCount < 100 then ["Analysis could be more comprehensive"] else [])
  { score := min score 100
    wordCount := wordCount
    sentences := sentences
    paragraphs := paragraphs
    length := response.length
    pros := pros.take 3
    cons := cons.take 2 }

end Process

namespace Legacy

/-- `analyzeResponse(response, provider)` from the legacy handler stored as
the second document of `src/netlify/functions/paypal-webhook.js`, lines
202-249 (base score 5, detail threshold 75 words, actionable bonus 0.5,
structure test via literal `includes` calls, no domain bonuses).  Scores are
in tenths: base 50, bonuses 10/10/10/5/5/5/5, capped by `min _ 100`. -/
def analyzeResponse (response provider : String) : ScoreResult :=
  let wordCount := (jsSplit isWs response).length
  let sentences := ((jsSplit sentSep response).filter
    (fun s => decide (0 < (jsTrim s).length))).length
  let paragraphs := (parSplit response).length
  let hasStructure := containsSub response "\n" || containsSub response "*"
    || containsSub response "-" || containsSub response "1."
  let isDetailed := decide (75 < wordCount)
  let isCoherent := decide (1 < sentences) && decide (wordCount < 40 * sentences)
  let hasExamples := containsSub (jsLower response) "example"
    || containsSub (jsLower response) "for instance"
  let isActionable := containsSub (jsLower response) "recommend"
    || containsSub (jsLower response) "suggest"
    || containsSub (jsLower response) "should"
  let score : Nat := 50
    + (if isDetailed then 10 else 0)
    + (if hasStructure then 10 else 0)
    + (if isCoherent then 10 else 0)
    + (if hasExamples then 5 else 0)
    + (if isActionable then 5 else 0)
    + (if 300 < response.length then 5 else 0)
    + (if 1 < paragraphs then 5 else 0)
  let pros :=
    (if isDetailed then ["Detailed and comprehensive"] else [])
    ++ (if hasStructure then ["Well-structured format"] else [])
    ++ (if isCoherent then ["Clear and coherent"] else [])
    ++ (if hasExamples then ["Includes helpful examples"] else [])
    ++ (if isActionable then ["Provides actionable advice"] else [])
  let cons :=
    (if !isDetailed then ["Could be more detailed"] else [])
    ++ (if !hasStructure then ["Could use better formatting"] else [])
    ++ (if !isCoherent then ["Could improve flow"] else [])
    ++ (if wordCount < 50 then ["Quite brief"] else [])
  { score := min score 100
    wordCount := wordCount
    sentences := sentences
    paragraphs := paragraphs
    length := response.length
    pros := pros.take 3
    cons := cons.take 2 }

end Legacy

/-- Result of one provider call as seen from inside `callAI`'s `try` block:
either the text extracted from the provider's JSON response, or the
`error.message` of whatever was thrown (transport failure, non-2xx status,
or a missing extraction path).  The network and the providers' response
shapes are external to the repository, so they enter the model as this
oracle value. -/
inductive NetResult where
  | ok (text : String)
  | err (msg : String)
deriving DecidableEq, Repr

/-- The network oracle: provider identifier and prompt to a `NetResult`. -/
def NetOracle : Type := String → String → NetResult

/-- The three provider credentials read from the environment by
`exports.handler` (`ANTHROPIC_API_KEY`, `GOOGLE_API_KEY`,
`OPENAI_API_KEY`); `none` models an unset variable. -/
structure Env where
  anthropicKey : Option String
  googleKey : Option String
  openaiKey : Option String

/-- The handler's `apiKeys` lookup table (`process-ai-test.js` lines
335-339), a JS object keyed by display name. -/
def apiKeys (env : Env) (ai : String) : Option String :=
  if ai = "Claude" then env.anthropicKey
  else if ai = "Gemini" then env.googleKey
  else if ai = "ChatGPT" then env.openaiKey
  else none

/-- The handler's `providers` lookup table (lines 341-345). -/
def providers (ai : String) : Option String :=
  if ai = "Claude" then some "anthropic"
  else if ai = "Gemini" then some "google"
  else if ai = "ChatGPT" then some "openai"
  else none

/-- JavaScript truthiness of the `key` in `if (!key)`: an absent key and the
empty-string key are both falsy. -/
def keyFalsy (env : Env) (ai : String) : Bool :=
  ((apiKeys env ai).getD "") == ""

/-- The string produced by `callAI`'s `try` block: the extracted response
text on success, or the catch branch's
`Error: Could not get response from <provider>. <message>` string. -/
def callText (provider prompt : String) (net : NetOracle) : String :=
  match net provider prompt with
  | NetResult.ok text => text
  | NetResult.err msg =>
      "Error: Could not get response from " ++ provider ++ ". " ++ msg

/-- `callAI(provider, prompt, apiKey)` from `process-ai-test.js` lines 46-83.
The missing-configuration check precedes the `try` block, so that error
propagates (`Except.error`); everything thrown inside the `try` is caught
and returned as the `callText` string. -/
def callAI (provider prompt : String) (net : NetOracle) : Except String String :=
  if provider = "anthropic" ∨ provider = "google" ∨ provider = "openai" then
    Except.ok (callText provider prompt net)
  else
    Except.error ("Configuration for AI provider \x27" ++ provider ++ "\x27 not found.")

/-- The `analysis` field of a result entry.  The missing-API-key branch of
the handler builds the literal object `{score: 0, pros: [], cons: [...]}`
without the metric fields, a different shape from `analyzeResponse`'s full
record; the sum distinguishes the two shapes just as the JS objects differ. -/
inductive Analysis where
  | full (r : ScoreResult)
  | stub (score : Nat) (pros cons : List String)
deriving DecidableEq, Repr

/-- The `analysis.score` access, defined on both object shapes. -/
def Analysis.score : Analysis → Nat
  | Analysis.full r => r.score
  | Analysis.stub s _ _ => s

/-- View of an `Analysis` as a full record, used where the source reads the
metric fields; `stub` entries (missing API key) always carry an `Error:`
response, so the source never reads metric fields off a stub. -/
def scoreResultOf : Analysis → ScoreResult
  | Analysis.full r => r
  | Analysis.stub s pros cons => ⟨s, 0, 0, 0, 0, pros, cons⟩

/-- One value of the handler's `results` object: `{response, analysis}`
(the `timestamp` field is an external clock read and appears in no claim). -/
structure Entry where
  response : String
  analysis : Analysis
deriving DecidableEq, Repr

/-- JS property read `l[k]` on an object embedded as an association list. -/
def objGet (l : List (String × Entry)) (k : String) : Option Entry :=
  (l.find? (fun p => p.1 == k)).map Prod.snd

/-- JS property write `l[k] = v`: replaces an existing key in place,
otherwise appends (insertion order, as `Object.keys` enumerates it). -/
def objSet (l : List (String × Entry)) (k : String) (v : Entry) : List (String × Entry) :=
  if l.any (fun p => p.1 == k) then
    l.map (fun p => if p.1 == k then (k, v) else p)
  else l ++ [(k, v)]

/-- The entry written for a provider whose API key is missing
(`process-ai-test.js` lines 355-364). -/
def missingEntry (ai : String) : Entry :=
  ⟨"Error: Missing API key for " ++ ai, Analysis.stub 0 [] ["Missing API key"]⟩

/-- State threaded through the handler's `for (const ai of selectedAIs)`
loop: the `results` object, the `failedCount` counter, and (for the claims
about network behaviour) the list of providers for which a network call was
issued. -/
structure LoopState where
  results : List (String × Entry)
  failedCount : Nat
  calls : List String
deriving DecidableEq, Repr

/-- One iteration of the handler loop (`process-ai-test.js` lines 351-381):
missing-credential short-circuit (no network call, stub entry, counter
bump), otherwise a `callAI` invocation whose result is scored with
`analyzeResponse` and counted as failed iff it contains `Error:`. -/
def stepAI (env : Env) (net : NetOracle) (prompt toolType : String)
    (st : LoopState) (ai : String) : Except String LoopState :=
  if keyFalsy env ai then
    Except.ok ⟨objSet st.results ai (missingEntry ai), st.failedCount + 1, st.calls⟩
  else
    match providers ai with
    | some provider =>
      match callAI provider prompt net with
      | Except.ok response =>
        Except.ok ⟨objSet st.results ai
            ⟨response, Analysis.full (Process.analyzeResponse response provider toolType)⟩,
          st.failedCount + (if containsSub response "Error:" then 1 else 0),
          st.calls ++ [ai]⟩
      | Except.error e => Except.error e
    | none =>
      Except.error "Configuration for AI provider \x27undefined\x27 not found."

/-- The handler loop over the selected providers. -/
def processAIs (env : Env) (net : NetOracle) (prompt toolType : String) :
    List String → LoopState → Except String LoopState
  | [], st => Except.ok st
  | ai :: rest, st =>
    match stepAI env net prompt toolType st ai with
    | Except.ok st2 => processAIs env net prompt toolType rest st2
    | Except.error e => Except.error e

/-- The entry the loop leaves in `results[ai]` — the closed form proved in
`stepAI_eq`.  The two error defaults are unreachable: a truthy key implies a
registered provider, and `callAI` only throws for unregistered providers. -/
def entryOf (env : Env) (net : NetOracle) (prompt toolType ai : String) : Entry :=
  if keyFalsy env ai then missingEntry ai
  else
    match providers ai with
    | some provider =>
      match callAI provider prompt net with
      | Except.ok response =>
          ⟨response, Analysis.full (Process.analyzeResponse response provider toolType)⟩
      | Except.error _ => ⟨"", Analysis.stub 0 [] []⟩
    | none => ⟨"", Analysis.stub 0 [] []⟩

/-- `getReportTitle` (`process-ai-test.js` lines 219-230). -/
def getReportTitle (toolType : String) : String :=
  if toolType = "real-estate-investment" then "Real Estate Investment Analysis Report"
  else if toolType = "real-estate-market" then "Real Estate Market Analysis Report"
  else if toolType = "real-estate-listing" then "Property Listing Content Report"
  else "AI Comparison Analysis Report"

/-- `getToolDisplayName` (lines 232-243). -/
def getToolDisplayName (toolType : String) : String :=
  if toolType = "real-estate-investment" then "Investment Analysis"
  else if toolType = "real-estate-market" then "Market Analysis"
  else if toolType = "real-estate-listing" then "Listing Generation"
  else "General AI Analysis"

/-- Rendering of a score held in tenths, as JS string interpolation renders
the corresponding float: integral values without a decimal part (`7`),
half values with one decimal (`7.5`). -/
def scoreStr (t : Nat) : String :=
  if t % 10 = 0 then toString (t / 10)
  else toString (t / 10) ++ "." ++ toString (t % 10)

/-- The `creditInfo` object of the handler (lines 385-389). -/
structure CreditInfo where
  used : Int
  refunded : Int
  net : Int
deriving DecidableEq, Repr

/-- `results[ai].analysis.score` as used by the report's sort comparator.
All names fed to it come from `Object.keys(results)`, so the lookup always
succeeds. -/
def scoreOfName (results : List (String × Entry)) (ai : String) : Nat :=
  ((objGet results ai).map (fun e => e.analysis.score)).getD 0

/-- `results[ai].response` for names drawn from `Object.keys(results)`. -/
def respOfName (results : List (String × Entry)) (ai : String) : String :=
  ((objGet results ai).map Entry.response).getD ""

/-- `aiNames.sort((a, b) => results[b].analysis.score - results[a].analysis.score)`
(line 136): a stable descending sort of the key list by score.  JS
`Array.prototype.sort` is stable and sorts in place, so the sorted list is
what all later uses of `aiNames` see. -/
def sortedNames (results : List (String × Entry)) : List String :=
  List.insertionSort (fun a b => scoreOfName results b ≤ scoreOfName results a)
    (results.map Prod.fst)

/-- `aiNames.filter(ai => !results[ai].response.includes('Error:'))`
(line 154), evaluated after the in-place sort. -/
def workingAIs (results : List (String × Entry)) : List String :=
  (sortedNames results).filter
    (fun ai => !(containsSub (respOfName results ai) "Error:"))

/-- The report text accumulated before the executive-summary branch
(`generateComparisonReport` lines 138-152): title, optional property line,
analysis type, date, model list (the sorted name array), credit usage and
the optional refund line, then the Executive Summary heading. -/
def reportHeader (sorted : List String) (creditInfo : CreditInfo)
    (toolType : String) (propertyInfo : Option String) (date : String) : String :=
  "# " ++ getReportTitle toolType ++ "\n\n"
  ++ (match propertyInfo with
      | some addr => if addr = "" then "" else "**Property:** " ++ addr ++ "\n"
      | none => "")
  ++ "**Analysis Type:** " ++ getToolDisplayName toolType ++ "\n"
  ++ "**Date:** " ++ date ++ "\n"
  ++ "**AI Models:** " ++ joinSep sorted ", " ++ "\n"
  ++ "**Credits Used:** " ++ toString creditInfo.used ++ " credits\n"
  ++ (if 0 < creditInfo.refunded then
        "**Credits Refunded:** " ++ toString creditInfo.refunded
          ++ " credits (for failed analyses)\n"
      else "")
  ++ "\n## Executive Summary\n\n"

/-- The line emitted, followed by an early return, when no provider
succeeded (line 159). -/
def allFailedLine : String :=
  "**Result:** All AI analyses failed - credits have been refunded\n\n"

/-- The response preview of a successful detail section (lines 177-179). -/
def previewOf (response : String) : String :=
  if 2000 < response.length then
    String.mk (response.data.take 2000) ++ "\n\n[Analysis continues...]"
  else response

/-- One iteration of the per-provider `forEach` (lines 165-190). -/
def detailBlock (results : List (String × Entry)) (i : Nat) (ai : String) : String :=
  let result := (objGet results ai).getD ⟨"", Analysis.stub 0 [] []⟩
  let analysis := scoreResultOf result.analysis
  if containsSub result.response "Error:" then
    "### " ++ toString (i + 1) ++ ". " ++ ai ++ " Analysis - FAILED ‚ùå\n\n"
    ++ "**Error:** " ++ result.response ++ "\n"
    ++ "**Credit Status:** Refunded ‚úÖ\n\n---\n\n"
  else
    "### " ++ toString (i + 1) ++ ". " ++ ai ++ " Analysis - Score: "
      ++ scoreStr analysis.score ++ "/10\n\n"
    ++ "**Professional Analysis:**\n```\n" ++ previewOf result.response ++ "\n```\n\n"
    ++ "**Analysis Quality Metrics:**\n"
    ++ "- Response Length: " ++ toString analysis.wordCount ++ " words ("
      ++ toString analysis.sentences ++ " sentences)\n"
    ++ "- Structure Quality: " ++ toString analysis.paragraphs ++ " sections\n"
    ++ "- Professional Score: " ++ scoreStr analysis.score ++ "/10\n\n"
    ++ "**Key Strengths:** " ++ joinSep analysis.pros ", " ++ "\n"
    ++ (if analysis.cons.length ≠ 0 then
          "**Areas for Enhancement:** " ++ joinSep analysis.cons ", " ++ "\n"
        else "")
    ++ "\n---\n\n"

/-- The concatenation of all per-provider detail sections, in sorted order
with one-based ranks. -/
def detailBlocks (results : List (String × Entry)) (sorted : List String) : String :=
  String.join (sorted.enum.map (fun p => detailBlock results p.1 p.2))

/-- `generateComparisonReport(results, prompt, creditInfo, toolType,
propertyInfo)` from `process-ai-test.js` lines 134-217.  The `prompt`
argument is unused in the source body and omitted; the current date is the
`date` parameter.  When at least one provider's response is free of
`Error:`, the full report is produced; otherwise the function returns early
with the total-failure line and no detail sections. -/
def generateComparisonReport (results : List (String × Entry))
    (creditInfo : CreditInfo) (toolType : String) (propertyInfo : Option String)
    (date : String) : String :=
  let sorted := sortedNames results
  let working := workingAIs results
  let header := reportHeader sorted creditInfo toolType propertyInfo date
  if 0 < working.length then
    let top := sorted.headD ""
    header
    ++ ("**Best Analysis:** " ++ top)
    ++ (" scored " ++ scoreStr (scoreOfName results top) ++ "/10\n"
      ++ "**Successful Analyses:** " ++ toString working.length ++ " of "
        ++ toString sorted.length ++ " AI models completed successfully\n\n"
      ++ "## Detailed AI Analysis Results\n\n"
      ++ detailBlocks results sorted
      ++ "## Analysis Summary & Value\n\n"
      ++ "- **Total Credits Used:** " ++ toString creditInfo.used ++ "\n"
      ++ "- **Successful Analyses:** " ++ toString working.length ++ "\n"
      ++ (if 0 < creditInfo.refunded then
            "- **Failed Analyses:** " ++ toString creditInfo.refunded ++ "\n"
            ++ "- **Credits Refunded:** " ++ toString creditInfo.refunded ++ "\n"
            ++ "- **Net Investment:** "
              ++ toString (creditInfo.used - creditInfo.refunded) ++ " credits\n"
          else "")
      ++ (if 0 < working.length then
            "\n## Professional Recommendations\n\n"
            ++ "**Top Performing Analysis:** " ++ top
              ++ " delivered the most comprehensive analysis with a "
              ++ scoreStr (scoreOfName results top) ++ "/10 quality score.\n\n"
            ++ "**Value Assessment:** You received " ++ toString working.length
              ++ " professional AI analysis"
              ++ (if working.length ≠ 1 then "es" else "") ++ " for "
              ++ toString (creditInfo.used - creditInfo.refunded) ++ " credit"
              ++ (if creditInfo.used - creditInfo.refunded ≠ 1 then "s" else "")
              ++ ", providing multiple expert perspectives on your "
              ++ jsLower (getToolDisplayName toolType) ++ ".\n\n"
            ++ (if containsSub toolType "real-estate" then
                  "**Next Steps:** Review each analysis for different perspectives on financial projections, risk factors, and market positioning. Consider consulting with a local real estate professional for property-specific details and current market conditions.\n"
                else "")
          else "")
      ++ "\n---\n\n"
      ++ "**Privacy Notice:** This analysis was generated specifically for your request. All input data has been immediately deleted from our systems after processing. No property information, financial details, or analysis results are stored or retained.\n\n"
      ++ "**Disclaimer:** This AI-generated analysis is for informational purposes only and should not be considered as professional financial, legal, or real estate advice. Please consult with qualified professionals before making investment decisions.\n")
  else header ++ allFailedLine

/-- The artifacts of one handler run that the claims inspect: the `results`
object, the `creditInfo` object, the report markdown handed to the e-mail
step, the `failedAIs` list of the response body, and the list of providers
for which a network call was issued. -/
structure Artifacts where
  results : List (String × Entry)
  creditInfo : CreditInfo
  report : String
  failedAIs : List String
  calls : List String
deriving DecidableEq, Repr

instance : Inhabited Artifacts := ⟨⟨[], ⟨0, 0, 0⟩, "", [], []⟩⟩

/-- JS `a || d` for string-valued fields: absent, null and empty strings
fall back to the default. -/
def jsOrStr (s : Option String) (d : String) : String :=
  match s with
  | none => d
  | some v => if v = "" then d else v

/-- The `propertyInfo` argument built by the handler (line 394):
`orderData.propertyAddress ? { address } : null`, with the empty string
falsy. -/
def propInfoOf (propertyAddressField : Option String) : Option String :=
  match propertyAddressField with
  | some addr => if addr = "" then none else some addr
  | none => none

/-- The body of `exports.handler` from `process-ai-test.js` lines 321-433,
from the parsed order data to the response artifacts: tool-type and
selected-AI defaulting (lines 325, 333), the provider loop, the
`creditInfo` computation `{used, refunded, net: used - refunded}` (lines
384-389), the report generation with the property info (lines 394-401), and
the `failedAIs` filter of the response body (line 431).  E-mail delivery and
the HTTP envelope are external effects outside the claims. -/
def handlerCore (env : Env) (net : NetOracle) (creditsUsed : Int)
    (prompt : String) (toolTypeField : Option String)
    (selectedAIsField : Option (List String)) (propertyAddressField : Option String)
    (date : String) : Except String Artifacts :=
  let toolType := jsOrStr toolTypeField "general"
  let selectedAIs := selectedAIsField.getD ["Claude", "Gemini", "ChatGPT"]
  match processAIs env net prompt toolType selectedAIs ⟨[], 0, []⟩ with
  | Except.error e => Except.error e
  | Except.ok st =>
    let creditInfo : CreditInfo :=
      ⟨creditsUsed, (st.failedCount : Int), creditsUsed - (st.failedCount : Int)⟩
    let report := generateComparisonReport st.results creditInfo toolType
      (propInfoOf propertyAddressField) date
    let failedAIs := selectedAIs.filter (fun ai =>
      ((objGet st.results ai).map (fun e => containsSub e.response "Error:")).getD false)
    Except.ok ⟨st.results, creditInfo, report, failedAIs, st.calls⟩

/-- Projection out of the handler's `Except`; the handler in fact never
errors (`processAIs_eq`), so the default is never reached. -/
def getOk (e : Except String Artifacts) : Artifacts :=
  match e with
  | Except.ok a => a
  | Except.error _ => default

/-- First-occurrence key insertion: the effect of one `objSet` on the key
list of the results object. -/
def insertKey (ks : List String) (k : String) : List String :=
  if ks.any (fun x => x == k) then ks else ks ++ [k]

/-- The `results` object in closed form: one `objSet` per selected name. -/
def resultsOf (env : Env) (net : NetOracle) (prompt toolType : String)
    (ais : List String) : List (String × Entry) :=
  ais.foldl (fun acc ai => objSet acc ai (entryOf env net prompt toolType ai)) []

/-- The final `failedCount` in closed form: one increment per selected name
whose recorded response contains `Error:`. -/
def failedTally (env : Env) (net : NetOracle) (prompt toolType : String)
    (ais : List String) : Nat :=
  ais.countP (fun ai => containsSub (entryOf env net prompt toolType ai).response "Error:")

theorem isPrefixOf_append_self (l t : List Char) : l.isPrefixOf (l ++ t) = true := by
  induction l with
  | nil => cases t <;> rfl
  | cons c cs ih => simp [List.isPrefixOf, ih]

theorem findP_cons_of_pos {α : Type} {p : α → Bool} {a : α} (l : List α)
    (h : p a = true) : List.find? p (a :: l) = some a := by
  rw [List.find?_cons, h]

theorem findP_cons_of_neg {α : Type} {p : α → Bool} {a : α} (l : List α)
    (h : p a = false) : List.find? p (a :: l) = List.find? p l := by
  rw [List.find?_cons, h]

theorem hasSub_append (pat pre post : List Char) :
    hasSub pat (pre ++ (pat ++ post)) = true := by
  induction pre with
  | nil =>
    rw [List.nil_append]
    cases hp : pat ++ post with
    | nil =>
      have : pat = [] := by
        cases pat with
        | nil => rfl
        | cons c cs => simp at hp
      simp [this, hasSub]
    | cons c t =>
      rw [hasSub]
      have := isPrefixOf_append_self pat post
      rw [hp] at this
      simp [this]
  | cons x xs ih => simp [hasSub, ih]

/-- If a string decomposes as `pre ++ mid ++ post` at the character level,
then JS `includes` finds `mid` in it. -/
theorem containsSub_parts (s pre mid post : String)
    (h : s.data = pre.data ++ (mid.data ++ post.data)) : containsSub s mid = true := by
  unfold containsSub
  rw [h]
  exact hasSub_append mid.data pre.data post.data

theorem missingEntry_response_error (ai : String) :
    containsSub (missingEntry ai).response "Error:" = true := by
  apply containsSub_parts _ "" "Error:" (" Missing API key for " ++ ai)
  have h1 : ("Error: Missing API key for " : String).data
      = ("Error:" : String).data ++ (" Missing API key for " : String).data := by decide
  simp [missingEntry, String.data_append, h1]

theorem transportError_response_error (p m : String) :
    containsSub ("Error: Could not get response from " ++ p ++ ". " ++ m) "Error:" = true := by
  apply containsSub_parts _ "" "Error:" (" Could not get response from " ++ p ++ ". " ++ m)
  have h1 : ("Error: Could not get response from " : String).data
      = ("Error:" : String).data ++ (" Could not get response from " : String).data := by decide
  simp [String.data_append, h1, List.append_assoc]

theorem find?_replace_self (l : List (String × Entry)) (k : String) (v : Entry)
    (h : l.any (fun p => p.1 == k) = true) :
    (l.map (fun p => if p.1 == k then (k, v) else p)).find? (fun p => p.1 == k)
      = some (k, v) := by
  induction l with
  | nil => simp at h
  | cons p rest ih =>
    simp only [List.map_cons]
    by_cases hp : (p.1 == k) = true
    · rw [if_pos hp, findP_cons_of_pos _ (by simp)]
    · have h2 : rest.any (fun q => q.1 == k) = true := by
        rcases List.any_eq_true.mp h with ⟨x, hx, hxk⟩
        rcases List.mem_cons.mp hx with rfl | hx2
        · exact absurd hxk hp
        · exact List.any_eq_true.mpr ⟨x, hx2, hxk⟩
      rw [if_neg hp, findP_cons_of_neg _ (by simpa using hp), ih h2]

theorem find?_replace_ne (l : List (String × Entry)) (k : String) (v : Entry)
    (k2 : String) (h : (k2 == k) = false) :
    (l.map (fun p => if p.1 == k then (k, v) else p)).find? (fun p => p.1 == k2)
      = l.find? (fun p => p.1 == k2) := by
  induction l with
  | nil => rfl
  | cons p rest ih =>
    simp only [List.map_cons]
    by_cases hp : (p.1 == k) = true
    · have hpk : p.1 = k := eq_of_beq hp
      have hne : (k == k2) = false := by
        have hne0 := beq_eq_false_iff_ne.mp h
        exact beq_eq_false_iff_ne.mpr (fun he => hne0 he.symm)
      rw [if_pos hp, findP_cons_of_neg _ (by simpa using hne),
        findP_cons_of_neg _ (by simp [hpk, hne]), ih]
    · rw [if_neg hp]
      cases hq : (p.1 == k2) with
      | true =>
        rw [@findP_cons_of_pos (String × Entry) (fun q => q.1 == k2) p _ hq,
          @findP_cons_of_pos (String × Entry) (fun q => q.1 == k2) p _ hq]
      | false =>
        rw [@findP_cons_of_neg (String × Entry) (fun q => q.1 == k2) p _ hq,
          @findP_cons_of_neg (String × Entry) (fun q => q.1 == k2) p _ hq, ih]

theorem objGet_objSet_self (l : List (String × Entry)) (k : String) (v : Entry) :
    objGet (objSet l k v) k = some v := by
  unfold objGet objSet
  split
  case isTrue h => rw [find?_replace_self l k v h]; rfl
  case isFalse h =>
    rw [List.find?_append]
    have h1 : l.find? (fun p => p.1 == k) = none := by
      rw [List.find?_eq_none]
      intro x hx hpx
      exact h (List.any_eq_true.mpr ⟨x, hx, hpx⟩)
    rw [h1, Option.none_or, findP_cons_of_pos _ (by simp)]
    rfl

theorem objGet_objSet_ne (l : List (String × Entry)) (k : String) (v : Entry)
    (k2 : String) (h : k2 ≠ k) : objGet (objSet l k v) k2 = objGet l k2 := by
  have hb : (k2 == k) = false := beq_eq_false_iff_ne.mpr h
  unfold objGet objSet
  split
  case isTrue hany => rw [find?_replace_ne l k v k2 hb]
  case isFalse hany =>
    rw [List.find?_append]
    have h2 : [(k, v)].find? (fun p => p.1 == k2) = none := by
      rw [List.find?_eq_none]
      intro x hx hpx
      rcases List.mem_singleton.mp hx with rfl
      have : (k == k2) = true := hpx
      exact absurd (eq_of_beq this).symm h
    rw [h2, Option.or_none]

theorem any_map_fst (l : List (String × Entry)) (k : String) :
    (l.map Prod.fst).any (fun x => x == k) = l.any (fun p => p.1 == k) := by
  induction l with
  | nil => rfl
  | cons p rest ih => simp [List.any_cons, ih]

theorem objSet_keys (l : List (String × Entry)) (k : String) (v : Entry) :
    (objSet l k v).map Prod.fst = insertKey (l.map Prod.fst) k := by
  unfold objSet insertKey
  rw [any_map_fst]
  split
  · rw [List.map_map]
    apply List.map_congr_left
    intro p _
    by_cases hp : (p.1 == k) = true
    · simp [Function.comp, hp, eq_of_beq hp]
    · simp [Function.comp, hp]
  · simp

theorem mem_insertKey {ks : List String} {k x : String} :
    x ∈ insertKey ks k ↔ x ∈ ks ∨ x = k := by
  unfold insertKey
  split
  case isTrue h =>
    have hk : k ∈ ks := by
      rcases List.any_eq_true.mp h with ⟨y, hy, hyk⟩
      exact (eq_of_beq hyk) ▸ hy
    constructor
    · exact Or.inl
    · rintro (hx | rfl)
      · exact hx
      · exact hk
  case isFalse h => simp

theorem nodup_insertKey {ks : List String} {k : String} (h : ks.Nodup) :
    (insertKey ks k).Nodup := by
  unfold insertKey
  split
  case isTrue _ => exact h
  case isFalse hany =>
    have hk : k ∉ ks := fun hm => hany (List.any_eq_true.mpr ⟨k, hm, beq_self_eq_true k⟩)
    simp [List.nodup_append, h, hk]

theorem mem_foldl_insertKey (ais : List String) (ks : List String) (x : String) :
    x ∈ ais.foldl insertKey ks ↔ x ∈ ks ∨ x ∈ ais := by
  induction ais generalizing ks with
  | nil => simp
  | cons a rest ih =>
    rw [List.foldl_cons, ih, mem_insertKey, List.mem_cons]
    tauto

theorem nodup_foldl_insertKey (ais : List String) (ks : List String) (h : ks.Nodup) :
    (ais.foldl insertKey ks).Nodup := by
  induction ais generalizing ks with
  | nil => exact h
  | cons a rest ih => exact ih _ (nodup_insertKey h)

theorem foldl_objSet_keys (e : String → Entry) (ais : List String)
    (r : List (String × Entry)) :
    ((ais.foldl (fun acc ai => objSet acc ai (e ai)) r).map Prod.fst)
      = ais.foldl insertKey (r.map Prod.fst) := by
  induction ais generalizing r with
  | nil => rfl
  | cons a rest ih => rw [List.foldl_cons, List.foldl_cons, ih, objSet_keys]

theorem objGet_foldl_not_mem (e : String → Entry) (ais : List String)
    (r : List (String × Entry)) (ai : String) (h : ai ∉ ais) :
    objGet (ais.foldl (fun acc a => objSet acc a (e a)) r) ai = objGet r ai := by
  induction ais generalizing r with
  | nil => rfl
  | cons a rest ih =>
    rw [List.foldl_cons, ih _ (fun hm => h (List.mem_cons_of_mem a hm)),
      objGet_objSet_ne r a (e a) ai (fun he => h (he ▸ List.mem_cons_self a rest))]

theorem objGet_foldl_mem (e : String → Entry) (ais : List String)
    (r : List (String × Entry)) (ai : String) (h : ai ∈ ais) :
    objGet (ais.foldl (fun acc a => objSet acc a (e a)) r) ai = some (e ai) := by
  induction ais generalizing r with
  | nil => cases h
  | cons a rest ih =>
    rw [List.foldl_cons]
    by_cases hr : ai ∈ rest
    · exact ih _ hr
    · have ha : ai = a := by
        rcases List.mem_cons.mp h with h1 | h2
        · exact h1
        · exact absurd h2 hr
      subst ha
      rw [objGet_foldl_not_mem e rest _ ai hr, objGet_objSet_self]

theorem objGet_resultsOf (env : Env) (net : NetOracle) (prompt toolType : String)
    (ais : List String) (ai : String) (h : ai ∈ ais) :
    objGet (resultsOf env net prompt toolType ais) ai
      = some (entryOf env net prompt toolType ai) :=
  objGet_foldl_mem _ ais [] ai h

theorem resultsOf_keys (env : Env) (net : NetOracle) (prompt toolType : String)
    (ais : List String) :
    (resultsOf env net prompt toolType ais).map Prod.fst = ais.foldl insertKey [] :=
  foldl_objSet_keys _ ais []

theorem providers_of_key {env : Env} {ai : String} (h : keyFalsy env ai = false) :
    (ai = "Claude" ∧ providers ai = some "anthropic")
    ∨ (ai = "Gemini" ∧ providers ai = some "google")
    ∨ (ai = "ChatGPT" ∧ providers ai = some "openai") := by
  by_cases h1 : ai = "Claude"
  · exact Or.inl ⟨h1, by simp [providers, h1]⟩
  by_cases h2 : ai = "Gemini"
  · exact Or.inr (Or.inl ⟨h2, by simp [providers, h1, h2]⟩)
  by_cases h3 : ai = "ChatGPT"
  · exact Or.inr (Or.inr ⟨h3, by simp [providers, h1, h2, h3]⟩)
  · exfalso
    unfold keyFalsy apiKeys at h
    rw [if_neg h1, if_neg h2, if_neg h3] at h
    simp at h

theorem stepAI_eq (env : Env) (net : NetOracle) (prompt toolType : String)
    (st : LoopState) (ai : String) :
    stepAI env net prompt toolType st ai = Except.ok
      ⟨objSet st.results ai (entryOf env net prompt toolType ai),
       st.failedCount
         + (if containsSub (entryOf env net prompt toolType ai).response "Error:"
            then 1 else 0),
       st.calls ++ (if keyFalsy env ai then [] else [ai])⟩ := by
  unfold stepAI entryOf
  by_cases hk : keyFalsy env ai
  · simp [hk, missingEntry_response_error]
  · have hk2 : keyFalsy env ai = false := by simpa using hk
    rcases providers_of_key hk2 with ⟨rfl, hp⟩ | ⟨rfl, hp⟩ | ⟨rfl, hp⟩ <;>
      simp [hk2, hp, callAI]

theorem processAIs_eq (env : Env) (net : NetOracle) (prompt toolType : String)
    (ais : List String) (st : LoopState) :
    processAIs env net prompt toolType ais st = Except.ok
      ⟨ais.foldl (fun acc ai => objSet acc ai (entryOf env net prompt toolType ai)) st.results,
       st.failedCount
         + ais.countP (fun ai => containsSub (entryOf env net prompt toolType ai).response "Error:"),
       st.calls ++ ais.filter (fun ai => !(keyFalsy env ai))⟩ := by
  induction ais generalizing st with
  | nil => simp [processAIs]
  | cons a rest ih =>
    simp only [processAIs]
    rw [stepAI_eq]
    dsimp only
    rw [ih]
    simp only [List.foldl_cons]
    refine congrArg Except.ok ?_
    refine congrArg₂ (LoopState.mk _) ?_ ?_
    · rw [List.countP_cons]
      omega
    · rw [List.filter_cons]
      by_cases hk : keyFalsy env a
      · simp [hk]
      · simp [hk]

theorem handlerCore_eq (env : Env) (net : NetOracle) (used : Int) (prompt : String)
    (ttf : Option String) (ais : List String) (paf : Option String) (date : String) :
    handlerCore env net used prompt ttf (some ais) paf date = Except.ok
      ⟨resultsOf env net prompt (jsOrStr ttf "general") ais,
       ⟨used, (failedTally env net prompt (jsOrStr ttf "general") ais : Int),
        used - (failedTally env net prompt (jsOrStr ttf "general") ais : Int)⟩,
       generateComparisonReport (resultsOf env net prompt (jsOrStr ttf "general") ais)
         ⟨used, (failedTally env net prompt (jsOrStr ttf "general") ais : Int),
          used - (failedTally env net prompt (jsOrStr ttf "general") ais : Int)⟩
         (jsOrStr ttf "general") (propInfoOf paf) date,
       ais.filter (fun ai =>
         ((objGet (resultsOf env net prompt (jsOrStr ttf "general") ais) ai).map
           (fun e => containsSub e.response "Error:")).getD false),
       ais.filter (fun ai => !(keyFalsy env ai))⟩ := by
  unfold handlerCore
  dsimp only
  rw [processAIs_eq]
  dsimp only
  simp only [Nat.zero_add, List.nil_append]
  rfl

theorem keyFalsy_false_of_key {env : Env} {ai k : String}
    (hk : apiKeys env ai = some k) (hk2 : k ≠ "") : keyFalsy env ai = false := by
  unfold keyFalsy
  rw [hk]
  exact beq_eq_false_iff_ne.mpr hk2

theorem callText_ok {p prompt t : String} {net : NetOracle}
    (h : net p prompt = NetResult.ok t) : callText p prompt net = t := by
  unfold callText
  rw [h]

theorem callText_err {p prompt m : String} {net : NetOracle}
    (h : net p prompt = NetResult.err m) :
    callText p prompt net = "Error: Could not get response from " ++ p ++ ". " ++ m := by
  unfold callText
  rw [h]

theorem entryOf_with_key (env : Env) (net : NetOracle) (prompt toolType ai k p : String)
    (hk : apiKeys env ai = some k) (hk2 : k ≠ "") (hp : providers ai = some p) :
    entryOf env net prompt toolType ai
      = ⟨callText p prompt net,
         Analysis.full (Process.analyzeResponse (callText p prompt net) p toolType)⟩ := by
  have hkF := keyFalsy_false_of_key hk hk2
  have hvalid : p = "anthropic" ∨ p = "google" ∨ p = "openai" := by
    rcases providers_of_key hkF with ⟨_, h⟩ | ⟨_, h⟩ | ⟨_, h⟩ <;>
      (rw [hp] at h; exact (Option.some.inj h) ▸ (by simp))
  unfold entryOf
  rw [hkF]
  simp only [Bool.false_eq_true, if_false, hp]
  unfold callAI
  rw [if_pos hvalid]

theorem mem_sortedNames {results : List (String × Entry)} {x : String} :
    x ∈ sortedNames results ↔ x ∈ results.map Prod.fst :=
  (List.perm_insertionSort _ _).mem_iff

theorem sortedNames_sorted (results : List (String × Entry)) :
    List.Sorted (fun a b => scoreOfName results b ≤ scoreOfName results a)
      (sortedNames results) := by
  haveI h1 : IsTotal String (fun a b => scoreOfName results b ≤ scoreOfName results a) :=
    ⟨fun a b => le_total (scoreOfName results b) (scoreOfName results a)⟩
  haveI h2 : IsTrans String (fun a b => scoreOfName results b ≤ scoreOfName results a) :=
    ⟨fun _ _ _ hab hbc => le_trans hbc hab⟩
  exact List.sorted_insertionSort _ _

theorem sortedNames_head_ge (results : List (String × Entry)) (w : String)
    (rest : List String) (h : sortedNames results = w :: rest) :
    ∀ x ∈ results.map Prod.fst, scoreOfName results x ≤ scoreOfName results w := by
  intro x hx
  have hx2 : x ∈ sortedNames results := mem_sortedNames.mpr hx
  rw [h] at hx2
  rcases List.mem_cons.mp hx2 with rfl | hx3
  · exact le_refl _
  · have hs := sortedNames_sorted results
    rw [h] at hs
    exact List.rel_of_sorted_cons hs x hx3

theorem objGet_of_mem_keys {results : List (String × Entry)} {ai : String}
    (h : ai ∈ results.map Prod.fst) :
    ∃ e, objGet results ai = some e ∧ (ai, e) ∈ results := by
  obtain ⟨q, hq, rfl⟩ := List.mem_map.mp h
  have hsome : (results.find? (fun p => p.1 == q.1)).isSome = true :=
    List.find?_isSome.mpr ⟨q, hq, beq_self_eq_true _⟩
  obtain ⟨r, hr⟩ := Option.isSome_iff_exists.mp hsome
  refine ⟨r.2, ?_, ?_⟩
  · unfold objGet
    rw [hr]
    rfl
  · have hmem := List.mem_of_find?_eq_some hr
    have hpred0 := @List.find?_some (String × Entry) (fun p => p.1 == q.1) r results hr
    have hpred : r.1 = q.1 := eq_of_beq hpred0
    rw [← hpred]
    simpa using hmem

theorem workingAIs_eq_nil (results : List (String × Entry))
    (h : results.all (fun p => containsSub p.2.response "Error:") = true) :
    workingAIs results = [] := by
  unfold workingAIs
  rw [List.filter_eq_nil_iff]
  intro ai hai
  have hk : ai ∈ results.map Prod.fst := mem_sortedNames.mp hai
  obtain ⟨e, he1, he2⟩ := objGet_of_mem_keys hk
  have hresp : containsSub e.response "Error:" = true := List.all_eq_true.mp h _ he2
  simp [respOfName, he1, hresp]

theorem report_all_failed (results : List (String × Entry)) (creditInfo : CreditInfo)
    (toolType : String) (propertyInfo : Option String) (date : String)
    (h : results.all (fun p => containsSub p.2.response "Error:") = true) :
    generateComparisonReport results creditInfo toolType propertyInfo date
      = reportHeader (sortedNames results) creditInfo toolType propertyInfo date
        ++ allFailedLine := by
  unfold generateComparisonReport
  dsimp only
  rw [workingAIs_eq_nil results h]
  rfl

theorem report_contains_refunded (x : String) :
    containsSub (x ++ allFailedLine) "refunded" = true := by
  apply containsSub_parts _
    (x ++ "**Result:** All AI analyses failed - credits have been ") "refunded" "\n\n"
  have h1 : allFailedLine.data
      = ("**Result:** All AI analyses failed - credits have been " : String).data
        ++ (("refunded" : String).data ++ ("\n\n" : String).data) := by decide
  simp [allFailedLine, String.data_append, h1, List.append_assoc]

theorem containsSub_mid (a m x : String) : containsSub (a ++ m ++ x) m = true :=
  containsSub_parts _ a m x (by simp [String.data_append, List.append_assoc])

theorem report_contains_best (results : List (String × Entry)) (creditInfo : CreditInfo)
    (toolType : String) (propertyInfo : Option String) (date : String)
    (w : String) (rest : List String)
    (hsort : sortedNames results = w :: rest) (hwork : workingAIs results ≠ []) :
    containsSub (generateComparisonReport results creditInfo toolType propertyInfo date)
      ("**Best Analysis:** " ++ w) = true := by
  unfold generateComparisonReport
  dsimp only
  rw [if_pos (List.length_pos.mpr hwork), hsort]
  simp only [List.headD_cons]
  exact containsSub_mid _ _ _

theorem process_score_bounds (response provider toolType : String) :
    60 ≤ (Process.analyzeResponse response provider toolType).score
      ∧ (Process.analyzeResponse response provider toolType).score ≤ 100 := by
  dsimp only [Process.analyzeResponse]
  exact ⟨le_min (by omega) (by omega), min_le_right _ _⟩

theorem legacy_score_bounds (response provider : String) :
    50 ≤ (Legacy.analyzeResponse response provider).score
      ∧ (Legacy.analyzeResponse response provider).score ≤ 100 := by
  dsimp only [Legacy.analyzeResponse]
  exact ⟨le_min (by omega) (by omega), min_le_right _ _⟩

/-- C1: for every request with a non-empty prompt and a non-empty selected
provider list, the handler produces exactly one results entry per selected
provider identifier: the key list of the results object is the
first-occurrence deduplication of the selection, has no duplicate keys, and
contains a name iff that name was selected — regardless of the environment
and of how many individual providers fail (both universally quantified). -/
theorem claim_C1_one_outcome_per_selected_name
    (env : Env) (net : NetOracle) (used : Int) (prompt : String)
    (ttf paf : Option String) (date : String) (ais : List String)
    (hprompt : prompt ≠ "") (hais : ais ≠ []) :
    ∃ a, handlerCore env net used prompt ttf (some ais) paf date = Except.ok a
      ∧ a.results.map Prod.fst = ais.foldl insertKey []
      ∧ (a.results.map Prod.fst).Nodup
      ∧ (∀ x, x ∈ a.results.map Prod.fst ↔ x ∈ ais) := by
  refine ⟨_, handlerCore_eq env net used prompt ttf ais paf date, ?_, ?_, ?_⟩
  · exact resultsOf_keys env net prompt _ ais
  · dsimp only
    rw [resultsOf_keys]
    exact nodup_foldl_insertKey ais [] List.nodup_nil
  · intro x
    dsimp only
    rw [resultsOf_keys, mem_foldl_insertKey]
    simp

/-- C1 witness: a concrete request with two selected providers and no
configured credentials still yields exactly the two requested keys. -/
theorem claim_C1_witness :
    (("Explain photosynthesis" : String) ≠ ""
    ∧ (["Claude", "ChatGPT"] : List String) ≠ [])
    ∧ ∃ a, handlerCore ⟨none, none, none⟩ (fun _ _ => NetResult.err "x") 2
        "Explain photosynthesis" none (some ["Claude", "ChatGPT"]) none "1/1/2026"
        = Except.ok a
      ∧ a.results.map Prod.fst = ["Claude", "ChatGPT"].foldl insertKey []
      ∧ (a.results.map Prod.fst).Nodup
      ∧ (∀ x, x ∈ a.results.map Prod.fst ↔ x ∈ ["Claude", "ChatGPT"]) :=
  ⟨⟨by decide, by decide⟩,
   claim_C1_one_outcome_per_selected_name ⟨none, none, none⟩ (fun _ _ => NetResult.err "x")
     2 "Explain photosynthesis" none none "1/1/2026" ["Claude", "ChatGPT"]
     (by decide) (by decide)⟩

/-- C2 counterexample: the scorer applied to the empty string does not yield
0 — it returns the plain base score, 6.0 (60 tenths) in the base-6 variant
and 5.0 (50 tenths) in the base-5 variant; no special case for empty input
exists in either `analyzeResponse`. -/
theorem claim_C2_counterexample :
    (Process.analyzeResponse "" "anthropic" "general").score = 60
    ∧ (Process.analyzeResponse "" "anthropic" "general").score ≠ 0
    ∧ (Legacy.analyzeResponse "" "openai").score = 50
    ∧ (Legacy.analyzeResponse "" "openai").score ≠ 0 := by
  decide

/-- C2 amended: the scorer on the empty string does not raise (it is a total
function) and computes the ordinary base-plus-bonuses result — wordCount 1
(from splitting the empty string), 0 sentences, 1 paragraph, score 6.0
(resp. 5.0 in the legacy variant, both in tenths here), empty pros and the
first two not-detailed/no-structure cons — rather than a special-cased 0. -/
theorem claim_C2_empty_input_scores_base :
    Process.analyzeResponse "" "anthropic" "general"
      = ⟨60, 1, 0, 1, 0, [],
         ["Could provide more detailed analysis", "Could improve formatting structure"]⟩
    ∧ Legacy.analyzeResponse "" "openai"
      = ⟨50, 1, 0, 1, 0, [],
         ["Could be more detailed", "Could use better formatting"]⟩ := by
  decide

/-- C3 counterexample: with `creditsUsed = 1` and two failed outcomes the
handler computes `creditInfo = {used: 1, refunded: 2, net: -1}` — the net is
negative and the refund exceeds the credits used, so no clamping to
non-negative exists. -/
theorem claim_C3_counterexample :
    (getOk (handlerCore ⟨none, none, none⟩ (fun _ _ => NetResult.err "down") 1 "p" none
      (some ["Claude", "Gemini"]) none "d")).creditInfo = ⟨1, 2, -1⟩
    ∧ (getOk (handlerCore ⟨none, none, none⟩ (fun _ _ => NetResult.err "down") 1 "p" none
      (some ["Claude", "Gemini"]) none "d")).creditInfo.net < 0
    ∧ (1 : Int) < (getOk (handlerCore ⟨none, none, none⟩ (fun _ _ => NetResult.err "down")
      1 "p" none (some ["Claude", "Gemini"]) none "d")).creditInfo.refunded := by
  decide

/-- C3 amended: for every credits-used value and every outcome list,
`refunded` equals the number of outcomes recorded as failed and
`net = used - refunded` with NO clamping (net may go negative, see the
counterexample); in particular used = 3 with outcomes [fail, fail, success]
yields `{used: 3, refunded: 2, net: 1}` as the claim's example states. -/
theorem claim_C3_credit_reconciliation
    (env : Env) (net : NetOracle) (used : Int) (prompt : String)
    (ttf paf : Option String) (date : String) (ais : List String) :
    (∃ a, handlerCore env net used prompt ttf (some ais) paf date = Except.ok a
      ∧ a.creditInfo.used = used
      ∧ a.creditInfo.refunded
          = (failedTally env net prompt (jsOrStr ttf "general") ais : Int)
      ∧ a.creditInfo.net = used - a.creditInfo.refunded)
    ∧ (getOk (handlerCore ⟨some "ka", none, some "kb"⟩
        (fun p _ => if p = "openai" then NetResult.ok "Hi" else NetResult.err "boom")
        3 "p" none (some ["Claude", "Gemini", "ChatGPT"]) none "d")).creditInfo
      = ⟨3, 2, 1⟩ := by
  constructor
  · exact ⟨_, handlerCore_eq env net used prompt ttf ais paf date, rfl, rfl, rfl⟩
  · decide

/-- C4 counterexample: Claude's transport failure gets its error text scored
(7.0) above ChatGPT's genuine reply (6.0), so the report declares the FAILED
provider Claude as Best Analysis even though ChatGPT succeeded — a failed
outcome's provider can be declared the winner. -/
theorem claim_C4_counterexample :
    containsSub (getOk (handlerCore ⟨some "ka", none, some "kb"⟩
        (fun p _ => if p = "openai" then NetResult.ok "Hi" else NetResult.err "boom")
        2 "p" none (some ["Claude", "ChatGPT"]) none "1/1/2026")).report
      "**Best Analysis:** Claude scored 7/10" = true
    ∧ containsSub (respOfName (getOk (handlerCore ⟨some "ka", none, some "kb"⟩
        (fun p _ => if p = "openai" then NetResult.ok "Hi" else NetResult.err "boom")
        2 "p" none (some ["Claude", "ChatGPT"]) none "1/1/2026")).results "Claude")
      "Error:" = true
    ∧ workingAIs (getOk (handlerCore ⟨some "ka", none, some "kb"⟩
        (fun p _ => if p = "openai" then NetResult.ok "Hi" else NetResult.err "boom")
        2 "p" none (some ["Claude", "ChatGPT"]) none "1/1/2026")).results = ["ChatGPT"]
    ∧ (getOk (handlerCore ⟨some "ka", none, some "kb"⟩
        (fun p _ => if p = "openai" then NetResult.ok "Hi" else NetResult.err "boom")
        2 "p" none (some ["Claude", "ChatGPT"]) none "1/1/2026")).failedAIs = ["Claude"] := by
  decide

/-- C4 amended: when at least one outcome succeeded, the provider named as
Best Analysis is the head of the stable score-descending sort over ALL
outcomes — the provider with the maximal stored analysis score, failed
outcomes included (their `Error:` texts carry heuristic scores), so a failed
provider can outrank every successful one and be declared the winner. -/
theorem claim_C4_winner_is_global_max
    (results : List (String × Entry)) (creditInfo : CreditInfo) (toolType : String)
    (propertyInfo : Option String) (date : String) (w : String) (rest : List String)
    (hsort : sortedNames results = w :: rest) (hwork : workingAIs results ≠ []) :
    (∀ x ∈ results.map Prod.fst, scoreOfName results x ≤ scoreOfName results w)
    ∧ containsSub (generateComparisonReport results creditInfo toolType propertyInfo date)
        ("**Best Analysis:** " ++ w) = true :=
  ⟨sortedNames_head_ge results w rest hsort,
   report_contains_best results creditInfo toolType propertyInfo date w rest hsort hwork⟩

/-- C4 witness: a one-entry results object whose single provider succeeded;
it heads the sort and is named in the report. -/
theorem claim_C4_witness :
    (sortedNames [("A", ⟨"fine",
        Analysis.full (Process.analyzeResponse "fine" "openai" "general")⟩)] = "A" :: []
    ∧ workingAIs [("A", ⟨"fine",
        Analysis.full (Process.analyzeResponse "fine" "openai" "general")⟩)] ≠ [])
    ∧ ((∀ x ∈ [("A", (⟨"fine",
          Analysis.full (Process.analyzeResponse "fine" "openai" "general")⟩ : Entry))].map
            Prod.fst,
        scoreOfName [("A", ⟨"fine",
          Analysis.full (Process.analyzeResponse "fine" "openai" "general")⟩)] x
          ≤ scoreOfName [("A", ⟨"fine",
            Analysis.full (Process.analyzeResponse "fine" "openai" "general")⟩)] "A")
      ∧ containsSub (generateComparisonReport [("A", ⟨"fine",
          Analysis.full (Process.analyzeResponse "fine" "openai" "general")⟩)]
          ⟨1, 0, 1⟩ "general" none "1/1/2026") ("**Best Analysis:** " ++ "A") = true) :=
  ⟨⟨by decide, by decide⟩,
   claim_C4_winner_is_global_max
     [("A", ⟨"fine", Analysis.full (Process.analyzeResponse "fine" "openai" "general")⟩)]
     ⟨1, 0, 1⟩ "general" none "1/1/2026" "A" [] (by decide) (by decide)⟩

/-- C5 counterexample: a transport-failed outcome is NOT given the fixed
score-0/empty-pros result — its `Error:` message text is scored by the
normal heuristic, here 7.0 (70 tenths) with a non-empty pros list. -/
theorem claim_C5_counterexample :
    respOfName (getOk (handlerCore ⟨some "ka", none, none⟩ (fun _ _ => NetResult.err "boom")
        1 "p" none (some ["Claude"]) none "d")).results "Claude"
      = "Error: Could not get response from anthropic. boom"
    ∧ scoreOfName (getOk (handlerCore ⟨some "ka", none, none⟩ (fun _ _ => NetResult.err "boom")
        1 "p" none (some ["Claude"]) none "d")).results "Claude" = 70
    ∧ scoreOfName (getOk (handlerCore ⟨some "ka", none, none⟩ (fun _ _ => NetResult.err "boom")
        1 "p" none (some ["Claude"]) none "d")).results "Claude" ≠ 0
    ∧ ((objGet (getOk (handlerCore ⟨some "ka", none, none⟩ (fun _ _ => NetResult.err "boom")
        1 "p" none (some ["Claude"]) none "d")).results "Claude").map
          (fun e => (scoreResultOf e.analysis).pros)).getD []
      = ["Clear and coherent presentation"] := by
  decide

/-- C5 amended: only the missing-credential branch receives the fixed
`{score: 0, pros: [], cons: [one con]}` result; an outcome that failed with
a thrown transport/API/shape error records the caught `Error: ...` message
as its response and scores IT with the normal heuristic — a full ScoreResult
with score at least the base 6.0 (60 tenths). -/
theorem claim_C5_transport_error_scored_heuristically
    (env : Env) (net : NetOracle) (used : Int) (prompt : String)
    (ttf paf : Option String) (date : String) (ais : List String) (ai k p m : String)
    (hai : ai ∈ ais) (hk : apiKeys env ai = some k) (hk2 : k ≠ "")
    (hp : providers ai = some p) (hnet : net p prompt = NetResult.err m) :
    ∃ a e, handlerCore env net used prompt ttf (some ais) paf date = Except.ok a
      ∧ objGet a.results ai = some e
      ∧ e.response = "Error: Could not get response from " ++ p ++ ". " ++ m
      ∧ e.analysis = Analysis.full (Process.analyzeResponse e.response p (jsOrStr ttf "general"))
      ∧ 60 ≤ e.analysis.score
      ∧ containsSub e.response "Error:" = true := by
  have hct := callText_err hnet
  have hentry := entryOf_with_key env net prompt (jsOrStr ttf "general") ai k p hk hk2 hp
  rw [hct] at hentry
  refine ⟨_, ⟨"Error: Could not get response from " ++ p ++ ". " ++ m,
      Analysis.full (Process.analyzeResponse
        ("Error: Could not get response from " ++ p ++ ". " ++ m) p (jsOrStr ttf "general"))⟩,
    handlerCore_eq env net used prompt ttf ais paf date, ?_, rfl, rfl, ?_, ?_⟩
  · dsimp only
    rw [objGet_resultsOf env net prompt _ ais ai hai, hentry]
  · exact (process_score_bounds _ _ _).1
  · exact transportError_response_error p m

/-- C5 witness: concrete transport failure for Claude with the anthropic
key configured. -/
theorem claim_C5_witness :
    (("Claude" : String) ∈ ["Claude"]
    ∧ apiKeys ⟨some "ka", none, none⟩ "Claude" = some "ka"
    ∧ ("ka" : String) ≠ ""
    ∧ providers "Claude" = some "anthropic")
    ∧ ∃ a e, handlerCore ⟨some "ka", none, none⟩ (fun _ _ => NetResult.err "boom") 1 "p"
        none (some ["Claude"]) none "d" = Except.ok a
      ∧ objGet a.results "Claude" = some e
      ∧ e.response = "Error: Could not get response from " ++ "anthropic" ++ ". " ++ "boom"
      ∧ e.analysis = Analysis.full (Process.analyzeResponse e.response "anthropic"
          (jsOrStr none "general"))
      ∧ 60 ≤ e.analysis.score
      ∧ containsSub e.response "Error:" = true :=
  ⟨⟨by decide, by decide, by decide, by decide⟩,
   claim_C5_transport_error_scored_heuristically ⟨some "ka", none, none⟩
     (fun _ _ => NetResult.err "boom") 1 "p" none none "d" ["Claude"] "Claude" "ka"
     "anthropic" "boom" (by decide) (by decide) (by decide) (by decide) rfl⟩

/-- C6: a selected provider whose credential is absent (or set to the empty
string, equally falsy) never has a network call issued for it; it records
the fixed missing-key entry — whose `Error: Missing API key` response makes
it a failed outcome and whose stub score-0 analysis is a different shape
from the full heuristic record a transport failure carries — and it appears
in `failedAIs` and contributes at least one credit to the refund count. -/
theorem claim_C6_missing_credential_short_circuit
    (env : Env) (net : NetOracle) (used : Int) (prompt : String)
    (ttf paf : Option String) (date : String) (ais : List String) (ai : String)
    (hai : ai ∈ ais) (hkey : keyFalsy env ai = true) :
    ∃ a, handlerCore env net used prompt ttf (some ais) paf date = Except.ok a
      ∧ ai ∉ a.calls
      ∧ objGet a.results ai = some (missingEntry ai)
      ∧ containsSub (missingEntry ai).response "Error:" = true
      ∧ ai ∈ a.failedAIs
      ∧ (1 : Int) ≤ a.creditInfo.refunded := by
  have hentry : entryOf env net prompt (jsOrStr ttf "general") ai = missingEntry ai := by
    unfold entryOf
    rw [hkey]
    rfl
  refine ⟨_, handlerCore_eq env net used prompt ttf ais paf date, ?_, ?_, ?_, ?_, ?_⟩
  · dsimp only
    intro hmem
    have h2 := (List.mem_filter.mp hmem).2
    rw [hkey] at h2
    simp at h2
  · dsimp only
    rw [objGet_resultsOf env net prompt _ ais ai hai, hentry]
  · exact missingEntry_response_error ai
  · dsimp only
    refine List.mem_filter.mpr ⟨hai, ?_⟩
    rw [objGet_resultsOf env net prompt _ ais ai hai, hentry]
    simp [missingEntry_response_error ai]
  · dsimp only
    have hpos : 0 < failedTally env net prompt (jsOrStr ttf "general") ais := by
      unfold failedTally
      rw [List.countP_pos_iff]
      exact ⟨ai, hai, by rw [hentry]; exact missingEntry_response_error ai⟩
    exact_mod_cast hpos

/-- C6 witness: Claude selected with no anthropic key configured. -/
theorem claim_C6_witness :
    (("Claude" : String) ∈ ["Claude", "ChatGPT"]
    ∧ keyFalsy ⟨none, none, some "kc"⟩ "Claude" = true)
    ∧ ∃ a, handlerCore ⟨none, none, some "kc"⟩ (fun _ _ => NetResult.ok "fine") 2 "p" none
        (some ["Claude", "ChatGPT"]) none "d" = Except.ok a
      ∧ "Claude" ∉ a.calls
      ∧ objGet a.results "Claude" = some (missingEntry "Claude")
      ∧ containsSub (missingEntry "Claude").response "Error:" = true
      ∧ "Claude" ∈ a.failedAIs
      ∧ (1 : Int) ≤ a.creditInfo.refunded :=
  ⟨⟨by decide, by decide⟩,
   claim_C6_missing_credential_short_circuit ⟨none, none, some "kc"⟩
     (fun _ _ => NetResult.ok "fine") 2 "p" none none "d" ["Claude", "ChatGPT"] "Claude"
     (by decide) (by decide)⟩

/-- C7: when every outcome failed (every recorded response contains
`Error:`), the report generator short-circuits: the output is exactly the
header followed by the total-failure line — so all per-provider detail
sections, including every response text, are omitted — and it contains the
literal "refunded". -/
theorem claim_C7_total_failure_report (results : List (String × Entry))
    (creditInfo : CreditInfo) (toolType : String) (propertyInfo : Option String)
    (date : String)
    (hfail : results.all (fun p => containsSub p.2.response "Error:") = true) :
    generateComparisonReport results creditInfo toolType propertyInfo date
      = reportHeader (sortedNames results) creditInfo toolType propertyInfo date
        ++ allFailedLine
    ∧ containsSub (generateComparisonReport results creditInfo toolType propertyInfo date)
        "refunded" = true := by
  have h1 := report_all_failed results creditInfo toolType propertyInfo date hfail
  refine ⟨h1, ?_⟩
  rw [h1]
  exact report_contains_refunded _

/-- C7 witness: a one-entry all-failed results object. -/
theorem claim_C7_witness :
    ([("Claude", (⟨"Error: down", Analysis.stub 0 [] ["Missing API key"]⟩ : Entry))].all
        (fun p => containsSub p.2.response "Error:") = true)
    ∧ (generateComparisonReport
        [("Claude", ⟨"Error: down", Analysis.stub 0 [] ["Missing API key"]⟩)]
        ⟨1, 1, 0⟩ "general" none "1/2/2026"
      = reportHeader
          (sortedNames [("Claude", ⟨"Error: down", Analysis.stub 0 [] ["Missing API key"]⟩)])
          ⟨1, 1, 0⟩ "general" none "1/2/2026" ++ allFailedLine
      ∧ containsSub (generateComparisonReport
          [("Claude", ⟨"Error: down", Analysis.stub 0 [] ["Missing API key"]⟩)]
          ⟨1, 1, 0⟩ "general" none "1/2/2026") "refunded" = true) :=
  ⟨by decide,
   claim_C7_total_failure_report
     [("Claude", ⟨"Error: down", Analysis.stub 0 [] ["Missing API key"]⟩)]
     ⟨1, 1, 0⟩ "general" none "1/2/2026" (by decide)⟩

/-- C9: whether an outcome is treated as failed is decided purely by the
substring test `response.includes("Error:")` — for every selected name the
`failedAIs` membership is equivalent to that test on the recorded response —
so a genuinely successful provider reply whose text happens to contain
`Error:` is stored verbatim with its heuristic analysis and yet listed in
`failedAIs`, excluded from the working list of the executive summary, and
counted into the refund. -/
theorem claim_C9_error_substring_classification
    (env : Env) (net : NetOracle) (used : Int) (prompt : String)
    (ttf paf : Option String) (date : String) (ais : List String) (ai k p t : String)
    (hai : ai ∈ ais) (hk : apiKeys env ai = some k) (hk2 : k ≠ "")
    (hp : providers ai = some p) (hnet : net p prompt = NetResult.ok t)
    (ht : containsSub t "Error:" = true) :
    ∃ a, handlerCore env net used prompt ttf (some ais) paf date = Except.ok a
      ∧ objGet a.results ai
          = some ⟨t, Analysis.full (Process.analyzeResponse t p (jsOrStr ttf "general"))⟩
      ∧ ai ∈ a.failedAIs
      ∧ ai ∉ workingAIs a.results
      ∧ (∀ x ∈ ais, (x ∈ a.failedAIs
          ↔ containsSub (entryOf env net prompt (jsOrStr ttf "general") x).response "Error:"
              = true))
      ∧ (1 : Int) ≤ a.creditInfo.refunded := by
  have hct : callText p prompt net = t := callText_ok hnet
  have hentry : entryOf env net prompt (jsOrStr ttf "general") ai
      = ⟨t, Analysis.full (Process.analyzeResponse t p (jsOrStr ttf "general"))⟩ := by
    rw [entryOf_with_key env net prompt _ ai k p hk hk2 hp, hct]
  refine ⟨_, handlerCore_eq env net used prompt ttf ais paf date, ?_, ?_, ?_, ?_, ?_⟩
  · dsimp only
    rw [objGet_resultsOf env net prompt _ ais ai hai, hentry]
  · dsimp only
    refine List.mem_filter.mpr ⟨hai, ?_⟩
    rw [objGet_resultsOf env net prompt _ ais ai hai, hentry]
    simpa using ht
  · dsimp only
    intro hmem
    unfold workingAIs at hmem
    have h2 := (List.mem_filter.mp hmem).2
    unfold respOfName at h2
    rw [objGet_resultsOf env net prompt _ ais ai hai, hentry] at h2
    simp [ht] at h2
  · dsimp only
    intro x hx
    rw [List.mem_filter]
    constructor
    · rintro ⟨_, hpred⟩
      rw [objGet_resultsOf env net prompt _ ais x hx] at hpred
      simpa using hpred
    · intro hc
      exact ⟨hx, by rw [objGet_resultsOf env net prompt _ ais x hx]; simpa using hc⟩
  · dsimp only
    have hpos : 0 < failedTally env net prompt (jsOrStr ttf "general") ais := by
      unfold failedTally
      rw [List.countP_pos_iff]
      exact ⟨ai, hai, by rw [hentry]; simpa using ht⟩
    exact_mod_cast hpos

/-- C9 witness: ChatGPT succeeds on the network with a reply that contains
the literal "Error:" and is classified as failed. -/
theorem claim_C9_witness :
    (("ChatGPT" : String) ∈ ["ChatGPT"]
    ∧ apiKeys ⟨none, none, some "kc"⟩ "ChatGPT" = some "kc"
    ∧ ("kc" : String) ≠ ""
    ∧ providers "ChatGPT" = some "openai"
    ∧ containsSub "Error: is what the user asked about" "Error:" = true)
    ∧ ∃ a, handlerCore ⟨none, none, some "kc"⟩
        (fun p _ => if p = "openai" then NetResult.ok "Error: is what the user asked about"
          else NetResult.err "x") 1 "q" none (some ["ChatGPT"]) none "d" = Except.ok a
      ∧ objGet a.results "ChatGPT"
          = some ⟨"Error: is what the user asked about",
              Analysis.full (Process.analyzeResponse "Error: is what the user asked about"
                "openai" (jsOrStr none "general"))⟩
      ∧ "ChatGPT" ∈ a.failedAIs
      ∧ "ChatGPT" ∉ workingAIs a.results
      ∧ (∀ x ∈ ["ChatGPT"], (x ∈ a.failedAIs
          ↔ containsSub (entryOf ⟨none, none, some "kc"⟩
              (fun p _ => if p = "openai" then NetResult.ok "Error: is what the user asked about"
                else NetResult.err "x") "q" (jsOrStr none "general") x).response "Error:"
              = true))
      ∧ (1 : Int) ≤ a.creditInfo.refunded :=
  ⟨⟨by decide, by decide, by decide, by decide, by decide⟩,
   claim_C9_error_substring_classification ⟨none, none, some "kc"⟩
     (fun p _ => if p = "openai" then NetResult.ok "Error: is what the user asked about"
       else NetResult.err "x") 1 "q" none none "d" ["ChatGPT"] "ChatGPT" "kc" "openai"
     "Error: is what the user asked about" (by decide) (by decide) (by decide) (by decide)
     (by decide) (by decide)⟩

/-- C10: the heuristic score is bounded below by the base score and above by
the cap — every weight is a non-negative addition and the only cap is
`Math.min(_, 10)` — so every scored response lands in [6, 10] for the base-6
variant and [5, 10] for the base-5 variant (here in tenths: [60, 100] and
[50, 100]), never lower, for every input text including empty or meaningless
text. -/
theorem claim_C10_score_bounded_by_base (response provider toolType p2 : String) :
    (60 ≤ (Process.analyzeResponse response provider toolType).score
      ∧ (Process.analyzeResponse response provider toolType).score ≤ 100)
    ∧ (50 ≤ (Legacy.analyzeResponse response p2).score
      ∧ (Legacy.analyzeResponse response p2).score ≤ 100) :=
  ⟨process_score_bounds response provider toolType, legacy_score_bounds response p2⟩

end AITool
